import Mathlib

/-!
Verification of the AI-Cookbook workflow scripts.

This development gives a shallow embedding, in Lean 4, of the pure data
transformations performed by the repository's workflow scripts:

* `1-patterns-and-workflows/workflow-patterns/1-prompt-chaining.py`
* `1-patterns-and-workflows/workflow-patterns/2-routing.py`
* `1-patterns-and-workflows/workflow-patterns/3-parallization.py`
* `3-speech-to-text/app/endpoint.py`

Modelling conventions, used throughout:

* Python `str` values are modelled as `List Char` (with `String` wrappers at
  the interface).  `str.strip()`, `str.replace(old, "")` and
  `str.startswith(p)` are modelled by `pyStrip`, `removeAll` and
  `List.isPrefixOf` below, following CPython semantics (left-to-right,
  non-overlapping replacement; whitespace stripping at both ends).
* Python `float` values are IEEE-754 binary64 numbers; every binary64 number
  is an exact rational, so floats are modelled as `ℚ` and every float literal
  appearing in a comparison in the source (`0.6`, `0.7`, ...) is embedded as
  the exact rational value of its binary64 representation (`d06`, `d07`, ...).
  Comparisons on `ℚ` restricted to binary64 values coincide exactly with
  float comparisons, so this embedding is faithful wherever it is applied to
  binary64 inputs.
* `json.loads` (Python standard library, not repository code) is modelled by
  `jsonLoads`, a recursive-descent parser for the JSON fragment exercised
  here (objects, arrays, strings with simple escapes, decimal numbers,
  booleans, null); numeric literals are read as exact decimal rationals.
* Pydantic model construction `Model(**json_data)` is modelled by explicit
  parse functions from the `Json` tree; a raised Python exception is an
  `Except.error`.
* The external generative endpoint is nondeterministic; orchestrator
  functions therefore take the outcome of each generative call (the raw
  response text, or a raised transport error) as an explicit
  `Except PyErr String` argument.
-/

/-- Whitespace characters removed by Python's `str.strip()` (ASCII subset). -/
def isPyWs (c : Char) : Bool :=
  c = ' ' || c = '\t' || c = '\n' || c = '\r' || c = '\x0b' || c = '\x0c'

/-- Model of Python `str.strip()`: drop leading and trailing whitespace. -/
def pyStrip (l : List Char) : List Char :=
  (l.dropWhile isPyWs).rdropWhile isPyWs

/-- Fuel-indexed worker for `removeAll`; the fuel bounds the number of scanned
positions and always suffices when it is at least the list length. -/
def removeAllFuel (pat : List Char) : Nat → List Char → List Char
  | 0, l => l
  | _ + 1, [] => []
  | fuel + 1, c :: rest =>
    if pat.isPrefixOf (c :: rest) then
      removeAllFuel pat fuel (List.drop (pat.length - 1) rest)
    else
      c :: removeAllFuel pat fuel rest

/-- Model of Python `text.replace(pat, "")` for a nonempty pattern `pat`:
delete every occurrence of `pat`, scanning left to right without overlap. -/
def removeAll (pat l : List Char) : List Char :=
  removeAllFuel pat l.length l

/-- Does `pat` occur as a contiguous substring?  Models Python `pat in text`
for nonempty `pat`. -/
def hasSub (pat : List Char) : List Char → Bool
  | [] => pat.isPrefixOf []
  | c :: rest => pat.isPrefixOf (c :: rest) || hasSub pat rest

/-- The backtick character. -/
def btick : Char := Char.ofNat 96

/-- The three-backtick code-fence marker. -/
def fence : List Char := [btick, btick, btick]

/-- The `json`-tagged code-fence opener. -/
def fenceJson : List Char := fence ++ ['j', 's', 'o', 'n']

/-- Model of the text cleaning performed by `extract_json_from_response`
(`1-prompt-chaining.py`, lines 73-79): strip, then if the text starts with a
tagged or untagged fence, delete every fence occurrence and strip again. -/
def extractJsonClean (l : List Char) : List Char :=
  let text := pyStrip l
  if fenceJson.isPrefixOf text then
    pyStrip (removeAll fence (removeAll fenceJson text))
  else if fence.isPrefixOf text then
    pyStrip (removeAll fence text)
  else
    text

/-- Model of the text cleaning performed by `gemini_parse_response`
(`2-routing.py`, lines 99-103) and by `gemini_parse_async`
(`3-parallization.py`, lines 82-84): identical to `extractJsonClean` except
that only a `json`-tagged fence triggers any cleaning. -/
def routeClean (l : List Char) : List Char :=
  let text := pyStrip l
  if fenceJson.isPrefixOf text then
    pyStrip (removeAll fence (removeAll fenceJson text))
  else
    text

/-- Wrapping a payload in a `json`-tagged code fence, the shape the scripts
expect the model to produce: three backticks, `json`, newline, payload,
newline, three backticks. -/
def wrapJson (l : List Char) : List Char :=
  fenceJson ++ '\n' :: (l ++ '\n' :: fence)

/-- Wrapping a payload in an untagged code fence. -/
def wrapBare (l : List Char) : List Char :=
  fence ++ '\n' :: (l ++ '\n' :: fence)

/-- Parsed JSON values.  Python floats/ints both land in `num : ℚ`. -/
inductive Json where
  | null : Json
  | bool (b : Bool) : Json
  | num (q : ℚ) : Json
  | str (s : String) : Json
  | arr (elems : List Json) : Json
  | obj (fields : List (String × Json)) : Json
deriving Repr, Inhabited

/-- JSON whitespace accepted between tokens. -/
def isJsonWs (c : Char) : Bool :=
  c = ' ' || c = '\t' || c = '\n' || c = '\r'

/-- Skip leading JSON whitespace. -/
def skipWs : List Char → List Char
  | [] => []
  | c :: rest => if isJsonWs c then skipWs rest else c :: rest

/-- Simple escape sequences in JSON strings. -/
def escChar (e : Char) : Option Char :=
  if e = 'n' then some '\n'
  else if e = 't' then some '\t'
  else if e = 'r' then some '\r'
  else if e = '"' then some '"'
  else if e = '\\' then some '\\'
  else if e = '/' then some '/'
  else if e = 'b' then some '\x08'
  else if e = 'f' then some '\x0c'
  else none

/-- Parse the body of a JSON string after the opening quote; returns the
characters and the remainder after the closing quote. -/
def parseStrChars : List Char → Option (List Char × List Char)
  | [] => none
  | '"' :: rest => some ([], rest)
  | '\\' :: e :: rest =>
    match escChar e with
    | some c => (parseStrChars rest).map (fun p => (c :: p.1, p.2))
    | none => none
  | ['\\'] => none
  | c :: rest => (parseStrChars rest).map (fun p => (c :: p.1, p.2))

/-- Decimal digit test. -/
def isDigitCh (c : Char) : Bool := '0' ≤ c && c ≤ '9'

/-- Split off a maximal run of leading digits. -/
def takeDigits : List Char → (List Char × List Char)
  | [] => ([], [])
  | c :: rest =>
    if isDigitCh c then
      let p := takeDigits rest
      (c :: p.1, p.2)
    else ([], c :: rest)

/-- Numeric value of a digit run. -/
def digitsToNat (ds : List Char) : Nat :=
  ds.foldl (fun acc c => acc * 10 + (c.toNat - 48)) 0

/-- Parse a JSON number (optional sign, integer part, optional fraction) as
an exact rational. -/
def parseNumber (l : List Char) : Option (ℚ × List Char) :=
  let sgn : Bool × List Char :=
    match l with
    | '-' :: rest => (true, rest)
    | _ => (false, l)
  match takeDigits sgn.2 with
  | ([], _) => none
  | (ds, r) =>
    match r with
    | '.' :: r₂ =>
      match takeDigits r₂ with
      | ([], _) => none
      | (fs, r₃) =>
        let den : Nat := 10 ^ fs.length
        let n : ℤ := (digitsToNat ds * den + digitsToNat fs : Nat)
        some (mkRat (if sgn.1 then -n else n) den, r₃)
    | _ =>
      let n : ℤ := (digitsToNat ds : Nat)
      some (mkRat (if sgn.1 then -n else n) 1, r)

mutual

/-- Parse one JSON value; fuel bounds the nesting depth and always suffices
when it exceeds the input length. -/
def parseValue : Nat → List Char → Option (Json × List Char)
  | 0, _ => none
  | fuel + 1, l =>
    match skipWs l with
    | 'n' :: 'u' :: 'l' :: 'l' :: rest => some (.null, rest)
    | 't' :: 'r' :: 'u' :: 'e' :: rest => some (.bool true, rest)
    | 'f' :: 'a' :: 'l' :: 's' :: 'e' :: rest => some (.bool false, rest)
    | '"' :: rest => (parseStrChars rest).map (fun p => (.str (String.mk p.1), p.2))
    | '[' :: rest =>
      match skipWs rest with
      | ']' :: r => some (.arr [], r)
      | r => (parseElems fuel r).map (fun p => (.arr p.1, p.2))
    | '{' :: rest =>
      match skipWs rest with
      | '}' :: r => some (.obj [], r)
      | r => (parseMembers fuel r).map (fun p => (.obj p.1, p.2))
    | l' => (parseNumber l').map (fun p => (.num p.1, p.2))

/-- Parse the elements of a nonempty JSON array up to the closing bracket. -/
def parseElems : Nat → List Char → Option (List Json × List Char)
  | 0, _ => none
  | fuel + 1, l =>
    match parseValue fuel l with
    | none => none
    | some (v, r) =>
      match skipWs r with
      | ',' :: r' => (parseElems fuel r').map (fun p => (v :: p.1, p.2))
      | ']' :: r' => some ([v], r')
      | _ => none

/-- Parse the members of a nonempty JSON object up to the closing brace. -/
def parseMembers : Nat → List Char → Option (List (String × Json) × List Char)
  | 0, _ => none
  | fuel + 1, l =>
    match skipWs l with
    | '"' :: rest =>
      match parseStrChars rest with
      | none => none
      | some (k, r) =>
        match skipWs r with
        | ':' :: r₂ =>
          match parseValue fuel r₂ with
          | none => none
          | some (v, r₃) =>
            match skipWs r₃ with
            | ',' :: r₄ => (parseMembers fuel r₄).map (fun p => ((String.mk k, v) :: p.1, p.2))
            | '}' :: r₄ => some ([(String.mk k, v)], r₄)
            | _ => none
        | _ => none
    | _ => none

end

/-- Model of `json.loads`: parse one value, allow trailing whitespace only. -/
def jsonLoads (s : String) : Option Json :=
  let l := s.toList
  match parseValue (l.length + 1) l with
  | some (j, r) => if skipWs r = [] then some j else none
  | none => none

/-- Lookup in a parsed JSON object.  Python dicts keep the last binding for a
repeated key, so the fold takes the last match. -/
def jlookup (fields : List (String × Json)) (k : String) : Option Json :=
  fields.foldl (fun acc p => if p.1 = k then some p.2 else acc) none

/-- Read a JSON value as a Python `str`. -/
def asStr : Json → Option String
  | .str s => some s
  | _ => none

/-- Read a JSON value as a Python `float` (or `int`, which pydantic coerces
to `float`). -/
def asNum : Json → Option ℚ
  | .num q => some q
  | _ => none

/-- Read a JSON value as a Python `bool`. -/
def asBool : Json → Option Bool
  | .bool b => some b
  | _ => none

/-- Read a JSON value as a Python `int` (integral floats are accepted, as
pydantic lax mode does). -/
def asInt : Json → Option ℤ
  | .num q => if q.den = 1 then some q.num else none
  | _ => none

/-- Read a JSON value as a `list[str]`. -/
def asStrList : Json → Option (List String)
  | .arr xs => xs.mapM asStr
  | _ => none

/-- Exact binary64 value of the Python literal `0.6` (slightly below 3/5). -/
def d06 : ℚ := mkRat 5404319552844595 9007199254740992

/-- Exact binary64 value of the Python literal `0.65` (slightly above 13/20). -/
def d065 : ℚ := mkRat 5854679515581645 9007199254740992

/-- Exact binary64 value of the Python literal `0.7` (slightly below 7/10). -/
def d07 : ℚ := mkRat 3152519739159347 4503599627370496

/-- Exact binary64 value of the Python literal `0.9` (slightly below 9/10). -/
def d09 : ℚ := mkRat 8106479329266893 9007199254740992

/-- Exact binary64 value of the Python literal `0.695`; note it is strictly
below 139/200, which drives the rounding behaviour checked in C9. -/
def q695 : ℚ := mkRat 6260003482044989 9007199254740992

/-- Exact binary64 value of the Python literal `0.696` (slightly below
87/125). -/
def q696 : ℚ := mkRat 3134505340649865 4503599627370496

/-- Round `100 * q` to the nearest integer, ties to even (the rounding mode
of Python's `round`), computed on the numerator and denominator: with
`q = n/d` in lowest terms and `d > 0`, `f` is `⌊100*q⌋` and comparing twice
the remainder against `d` compares the fractional part against one half. -/
def roundHalfEven100 (q : ℚ) : ℤ :=
  let n := 100 * q.num
  let d : ℤ := (q.den : ℤ)
  let f := Int.fdiv n d
  let r2 := 2 * (n - f * d)
  if r2 < d then f
  else if d < r2 then f + 1
  else if f % 2 = 0 then f else f + 1

/-- Model of Python `round(x, 2)`: correctly rounded (half-to-even) to two
decimal places.  Python additionally re-rounds the decimal result to the
nearest binary64; that final step is omitted here, which changes no
comparison appearing in this development (the decimal results `n/100` and
their binary64 neighbours sit on the same side of every threshold used). -/
def pyRound2 (q : ℚ) : ℚ := mkRat (roundHalfEven100 q) 100

/-- The exception categories the scripts can raise. -/
inductive PyErr where
  | providerError (msg : String)
  | jsonDecodeError
  | validationError (msg : String)
deriving Repr, DecidableEq

deriving instance DecidableEq for Except

/-- Model of `EventExtraction` (1-prompt-chaining.py lines 31-39). -/
structure EventExtraction where
  description : String
  is_calendar_event : Bool
  confidence_score : ℚ
deriving Repr, DecidableEq

/-- Model of `EventDetails` (1-prompt-chaining.py lines 42-51). -/
structure EventDetails where
  name : String
  date : String
  duration_minutes : ℤ
  participants : List String
deriving Repr, DecidableEq

/-- Model of `EventConfirmation` (1-prompt-chaining.py lines 54-61). -/
structure EventConfirmation where
  confirmation_message : String
  calendar_link : Option String
deriving Repr, DecidableEq

/-- The closed category set of `CalendarRequestType.request_type`. -/
inductive RequestType where
  | new_event
  | modify_event
  | other
deriving Repr, DecidableEq

/-- Read the `request_type` literal. -/
def asRequestType : Json → Option RequestType
  | .str "new_event" => some .new_event
  | .str "modify_event" => some .modify_event
  | .str "other" => some .other
  | _ => none

/-- Model of `CalendarRequestType` (2-routing.py lines 27-43). -/
structure CalendarRequestType where
  request_type : RequestType
  confidence_score : ℚ
  description : String
deriving Repr, DecidableEq

/-- Model of the custom validator `CalendarRequestType.validate_confidence`
(2-routing.py lines 39-43): reject out-of-range scores, then store the value
rounded to two decimal places. -/
def validate_confidence (v : ℚ) : Except PyErr ℚ :=
  if 0 ≤ v ∧ v ≤ 1 then .ok (pyRound2 v)
  else .error (.validationError "Confidence score must be between 0 and 1")

/-- Model of `CalendarRequestType(**json_data)`: every declared field is
required; the confidence field passes through `validate_confidence`. -/
def parseCalendarRequestType (j : Json) : Except PyErr CalendarRequestType :=
  match j with
  | .obj fl =>
    match jlookup fl "request_type", jlookup fl "confidence_score",
        jlookup fl "description" with
    | some tj, some cj, some dj =>
      match asRequestType tj, asNum cj, asStr dj with
      | some t, some c, some d =>
        match validate_confidence c with
        | .ok c₂ => .ok ⟨t, c₂, d⟩
        | .error e => .error e
      | _, _, _ => .error (.validationError "invalid field value")
    | _, _, _ => .error (.validationError "field required")
  | _ => .error (.validationError "not an object")

/-- Model of `NewEventDetails` (2-routing.py lines 52-60). -/
structure NewEventDetails where
  name : String
  date : String
  duration_minutes : ℤ
  participants : List String
deriving Repr, DecidableEq

/-- Model of `NewEventDetails(**json_data)`: the four declared fields are
required and `duration_minutes` carries `ge=1`. -/
def parseNewEventDetails (j : Json) : Except PyErr NewEventDetails :=
  match j with
  | .obj fl =>
    match jlookup fl "name", jlookup fl "date", jlookup fl "duration_minutes",
        jlookup fl "participants" with
    | some nj, some dj, some mj, some pj =>
      match asStr nj, asStr dj, asInt mj, asStrList pj with
      | some n, some d, some m, some ps =>
        if 1 ≤ m then .ok ⟨n, d, m, ps⟩
        else .error (.validationError "duration_minutes must be at least 1")
      | _, _, _, _ => .error (.validationError "invalid field value")
    | _, _, _, _ => .error (.validationError "field required")
  | _ => .error (.validationError "not an object")

/-- Model of `CalendarResponse` (2-routing.py lines 79-86). -/
structure CalendarResponse where
  success : Bool
  message : String
  calendar_link : Option String
deriving Repr, DecidableEq

/-- Model of `CalendarValidation` (3-parallization.py lines 54-61). -/
structure CalendarValidation where
  is_calendar_request : Bool
  confidence_score : ℚ
deriving Repr, DecidableEq

/-- Model of `CalendarValidation(**json_data)`. -/
def parseCalendarValidation (j : Json) : Except PyErr CalendarValidation :=
  match j with
  | .obj fl =>
    match jlookup fl "is_calendar_request", jlookup fl "confidence_score" with
    | some bj, some cj =>
      match asBool bj, asNum cj with
      | some b, some c =>
        if 0 ≤ c ∧ c ≤ 1 then .ok ⟨b, c⟩
        else .error (.validationError "confidence out of range")
      | _, _ => .error (.validationError "invalid field value")
    | _, _ => .error (.validationError "field required")
  | _ => .error (.validationError "not an object")

/-- Model of `SecurityCheck` (3-parallization.py lines 64-67). -/
structure SecurityCheck where
  is_safe : Bool
  risk_flags : List String
deriving Repr, DecidableEq

/-- Model of `SecurityCheck(**json_data)`. -/
def parseSecurityCheck (j : Json) : Except PyErr SecurityCheck :=
  match j with
  | .obj fl =>
    match jlookup fl "is_safe", jlookup fl "risk_flags" with
    | some bj, some rj =>
      match asBool bj, asStrList rj with
      | some b, some rs => .ok ⟨b, rs⟩
      | _, _ => .error (.validationError "invalid field value")
    | _, _ => .error (.validationError "field required")
  | _ => .error (.validationError "not an object")

/-- Model of `extract_json_from_response` (1-prompt-chaining.py lines
68-85): clean the fences, then `json.loads`; a parse failure re-raises. -/
def extract_json_from_response (s : String) : Except PyErr Json :=
  match jsonLoads (String.mk (extractJsonClean s.toList)) with
  | none => .error .jsonDecodeError
  | some j => .ok j

/-- Model of `gemini_parse_response(response_text, CalendarRequestType)`
(2-routing.py lines 93-111): clean a `json`-tagged fence, `json.loads`,
construct the pydantic model; failures re-raise. -/
def gemini_parse_response_requestType (s : String) : Except PyErr CalendarRequestType :=
  match jsonLoads (String.mk (routeClean s.toList)) with
  | none => .error .jsonDecodeError
  | some j => parseCalendarRequestType j

/-- Model of `gemini_parse_response(response_text, NewEventDetails)`
(2-routing.py lines 93-111). -/
def gemini_parse_response_newEvent (s : String) : Except PyErr NewEventDetails :=
  match jsonLoads (String.mk (routeClean s.toList)) with
  | none => .error .jsonDecodeError
  | some j => parseNewEventDetails j

/-- Model of `process_calendar_request` (1-prompt-chaining.py lines
207-241).  The outcome of each of the three generative steps is an explicit
argument (the external endpoint is nondeterministic).  The whole body sits
in one `try`: any raised error is caught and the function returns `None`;
the gate check returns `None` without raising. -/
def process_calendar_request_chain
    (extractStep : Except PyErr EventExtraction)
    (detailsStep : String → Except PyErr EventDetails)
    (confirmStep : EventDetails → Except PyErr EventConfirmation) :
    Option EventConfirmation :=
  match extractStep with
  | .error _ => none
  | .ok extraction =>
    if extraction.is_calendar_event = false ∨ extraction.confidence_score < d06 then
      none
    else
      match detailsStep extraction.description with
      | .error _ => none
      | .ok details =>
        match confirmStep details with
        | .error _ => none
        | .ok confirmation => some confirmation

/-- The structured failure payload built in the `except` branch of the
routing workflow (2-routing.py lines 245-250). -/
def errorCalendarResponse : CalendarResponse :=
  { success := false
    message := "Sorry, I encountered an error processing your calendar request."
    calendar_link := none }

/-- Model of `process_calendar_request` (2-routing.py lines 223-250): route,
gate on confidence against the binary64 value of `0.7`, dispatch on the
category; a raised error anywhere inside the `try` yields the structured
failure payload. -/
def process_calendar_request_route
    (routeStep : Except PyErr CalendarRequestType)
    (newEventHandler : String → Except PyErr CalendarResponse)
    (modifyEventHandler : String → Except PyErr CalendarResponse) :
    Option CalendarResponse :=
  match routeStep with
  | .error _ => some errorCalendarResponse
  | .ok routeResult =>
    if routeResult.confidence_score < d07 then
      none
    else
      match routeResult.request_type with
      | .new_event =>
        match newEventHandler routeResult.description with
        | .ok resp => some resp
        | .error _ => some errorCalendarResponse
      | .modify_event =>
        match modifyEventHandler routeResult.description with
        | .ok resp => some resp
        | .error _ => some errorCalendarResponse
      | .other => none

/-- Model of `gemini_parse_async(prompt, CalendarValidation)`
(3-parallization.py lines 74-95).  The argument is the outcome of the
generative call (response text, or a raised transport error); any failure
inside the `try` (transport, JSON decoding, validation) resolves to the
conservative default `CalendarValidation(is_calendar_request=False,
confidence_score=0.0)`. -/
def gemini_parse_async_calendar (resp : Except PyErr String) : CalendarValidation :=
  let attempt : Except PyErr CalendarValidation :=
    match resp with
    | .error e => .error e
    | .ok text =>
      match jsonLoads (String.mk (routeClean text.toList)) with
      | none => .error .jsonDecodeError
      | some j => parseCalendarValidation j
  match attempt with
  | .ok v => v
  | .error _ => { is_calendar_request := false, confidence_score := 0 }

/-- Model of `gemini_parse_async(prompt, SecurityCheck)` (3-parallization.py
lines 74-95); failures resolve to `SecurityCheck(is_safe=False,
risk_flags=["Processing error"])`. -/
def gemini_parse_async_security (resp : Except PyErr String) : SecurityCheck :=
  let attempt : Except PyErr SecurityCheck :=
    match resp with
    | .error e => .error e
    | .ok text =>
      match jsonLoads (String.mk (routeClean text.toList)) with
      | none => .error .jsonDecodeError
      | some j => parseSecurityCheck j
  match attempt with
  | .ok v => v
  | .error _ => { is_safe := false, risk_flags := ["Processing error"] }

/-- The `details` sub-dictionary of the aggregate validation outcome. -/
structure ValidationDetails where
  calendar_request : Bool
  confidence_score : ℚ
  is_safe : Bool
  risk_flags : List String
deriving Repr, DecidableEq

/-- The aggregate dictionary returned by `validate_request`. -/
structure ValidationResult where
  is_valid : Bool
  calendar_check : CalendarValidation
  security_check : SecurityCheck
  details : ValidationDetails
deriving Repr, DecidableEq

/-- Model of `validate_request` (3-parallization.py lines 150-190): join the
two branch results (each already resolved by `gemini_parse_async`), combine
with the AND rule `is_calendar_request and confidence_score > 0.7 and
is_safe`, and carry both branches' evidence in the aggregate. -/
def validate_request (calendarResp securityResp : Except PyErr String) :
    ValidationResult :=
  let calendar_check := gemini_parse_async_calendar calendarResp
  let security_check := gemini_parse_async_security securityResp
  let is_valid := calendar_check.is_calendar_request &&
    decide (d07 < calendar_check.confidence_score) && security_check.is_safe
  { is_valid := is_valid
    calendar_check := calendar_check
    security_check := security_check
    details :=
      { calendar_request := calendar_check.is_calendar_request
        confidence_score := calendar_check.confidence_score
        is_safe := security_check.is_safe
        risk_flags := security_check.risk_flags } }

/-- Model of `_verify_webhook` (endpoint.py lines 153-163).  `hmacHex`
abstracts `hmac.new(secret.encode(), body, sha256).hexdigest()` (Python
standard library, kept opaque); `secret` is `WEBHOOK_SECRET` with `none`
for unset, and Python truthiness makes the empty string behave like unset.
`hmac.compare_digest` is constant-time string equality. -/
def verify_webhook (hmacHex : List Nat → String → String)
    (secret : Option String) (raw_body : List Nat)
    (signature : Option String) : Bool :=
  match secret with
  | none => true
  | some s =>
    if s = "" then true
    else
      match signature with
      | none => false
      | some sig =>
        if sig = "" then false
        else hmacHex raw_body s == sig

/-! ## Supporting lemmas -/

theorem removeAllFuel_congr (pat : List Char) :
    ∀ f₁ f₂ l, l.length ≤ f₁ → l.length ≤ f₂ →
      removeAllFuel pat f₁ l = removeAllFuel pat f₂ l := by
  intro f₁
  induction f₁ using Nat.strong_induction_on with
  | _ f₁ ih =>
    intro f₂ l h₁ h₂
    match l with
    | [] =>
      match f₁, f₂ with
      | 0, 0 => rfl
      | 0, _ + 1 => rfl
      | _ + 1, 0 => rfl
      | _ + 1, _ + 1 => rfl
    | c :: rest =>
      match f₁, f₂ with
      | g₁ + 1, g₂ + 1 =>
        simp only [List.length_cons] at h₁ h₂
        simp only [removeAllFuel]
        by_cases hp : pat.isPrefixOf (c :: rest)
        · rw [if_pos hp, if_pos hp]
          exact ih g₁ (Nat.lt_succ_self g₁) g₂ _
            (by simp only [List.length_drop]; omega)
            (by simp only [List.length_drop]; omega)
        · rw [if_neg hp, if_neg hp]
          rw [ih g₁ (Nat.lt_succ_self g₁) g₂ rest (by omega) (by omega)]

theorem removeAll_nil (pat : List Char) : removeAll pat [] = [] := rfl

theorem removeAll_cons_pos (pat : List Char) (c : Char) (rest : List Char)
    (hp : pat.isPrefixOf (c :: rest)) :
    removeAll pat (c :: rest) = removeAll pat (List.drop (pat.length - 1) rest) := by
  have h0 : removeAll pat (c :: rest) = removeAllFuel pat (rest.length + 1) (c :: rest) := by
    simp [removeAll]
  rw [h0]
  simp only [removeAllFuel]
  rw [if_pos hp]
  exact removeAllFuel_congr pat rest.length _ _
    (by simp only [List.length_drop]; exact Nat.sub_le _ _) (le_refl _)

theorem removeAll_cons_neg (pat : List Char) (c : Char) (rest : List Char)
    (hp : ¬ pat.isPrefixOf (c :: rest)) :
    removeAll pat (c :: rest) = c :: removeAll pat rest := by
  have h0 : removeAll pat (c :: rest) = removeAllFuel pat (rest.length + 1) (c :: rest) := by
    simp [removeAll]
  rw [h0]
  simp only [removeAllFuel]
  rw [if_neg hp]
  rfl

theorem isPrefixOf_append_self (pat rest : List Char) :
    pat.isPrefixOf (pat ++ rest) = true := by
  induction pat with
  | nil => simp [List.isPrefixOf]
  | cons c tl ih => simp [List.cons_append, List.isPrefixOf, ih]

/-- Deleting a pattern from a list that begins with it skips over it. -/
theorem removeAll_append_self (pat rest : List Char) (hne : pat ≠ []) :
    removeAll pat (pat ++ rest) = removeAll pat rest := by
  match pat, hne with
  | p :: pt, _ =>
    rw [List.cons_append, removeAll_cons_pos (p :: pt) p (pt ++ rest)
      (by rw [← List.cons_append]; exact isPrefixOf_append_self _ _)]
    simp only [List.length_cons, Nat.add_sub_cancel]
    rw [List.drop_left]

/-- A pattern avoiding some character cannot be a prefix across that
character: prefix testing stops inside the left part. -/
theorem isPrefixOf_append_not_mem (pat : List Char) (c : Char) (hc : c ∉ pat) :
    ∀ l m : List Char, pat.isPrefixOf (l ++ c :: m) = pat.isPrefixOf l := by
  induction pat with
  | nil => intro l m; simp [List.isPrefixOf]
  | cons p pt ih =>
    intro l m
    match l with
    | [] =>
      have hpc : (p == c) = false := by
        simp only [beq_eq_false_iff_ne, ne_eq]
        intro h; exact hc (h ▸ List.mem_cons_self p pt)
      simp [List.isPrefixOf, hpc]
    | a :: l' =>
      simp only [List.cons_append, List.isPrefixOf, List.append_eq]
      rw [ih (fun h => hc (List.mem_cons_of_mem p h)) l' m]

/-- Occurrence deletion distributes over a separating character that does not
occur in the (nonempty) pattern: no match can span the separator. -/
theorem removeAll_append_sep (pat : List Char) (c : Char) (hc : c ∉ pat)
    (hne : pat ≠ []) :
    ∀ n l m, l.length ≤ n →
      removeAll pat (l ++ c :: m) = removeAll pat l ++ c :: removeAll pat m := by
  intro n
  induction n using Nat.strong_induction_on with
  | _ n ih =>
    intro l m hl
    match l with
    | [] =>
      have hp : ¬ pat.isPrefixOf (c :: m) := by
        have h1 : pat.isPrefixOf ([] ++ c :: m) = pat.isPrefixOf [] :=
          isPrefixOf_append_not_mem pat c hc [] m
        simp only [List.nil_append] at h1
        rw [h1]
        match pat, hne with
        | _ :: _, _ => simp [List.isPrefixOf]
      simp only [List.nil_append, removeAll_nil]
      rw [removeAll_cons_neg pat c m hp]
    | a :: l' =>
      have hl' : l'.length + 1 ≤ n := by simpa using hl
      have hsplit : pat.isPrefixOf (a :: l' ++ c :: m) = pat.isPrefixOf (a :: l') := by
        have := isPrefixOf_append_not_mem pat c hc (a :: l') m
        simpa using this
      by_cases hp : pat.isPrefixOf (a :: l')
      · have hplen : pat.length ≤ l'.length + 1 := by
          have := List.IsPrefix.length_le (List.isPrefixOf_iff_prefix.mp hp)
          simpa using this
        have hfull : pat.isPrefixOf (a :: l' ++ c :: m) := by
          rw [hsplit]; exact hp
        rw [List.cons_append, removeAll_cons_pos pat a (l' ++ c :: m)
          (by rw [← List.cons_append]; exact hfull)]
        rw [removeAll_cons_pos pat a l' hp]
        rw [List.drop_append_of_le_length (by omega)]
        exact ih (n - 1) (by omega) (List.drop (pat.length - 1) l') m
          (by simp only [List.length_drop]; omega)
      · have hnotfull : ¬ pat.isPrefixOf (a :: l' ++ c :: m) := by
          rw [hsplit]; exact hp
        rw [List.cons_append, removeAll_cons_neg pat a (l' ++ c :: m)
          (by rw [← List.cons_append]; exact hnotfull)]
        rw [removeAll_cons_neg pat a l' hp]
        rw [ih (n - 1) (by omega) l' m (by omega), List.cons_append]

/-- On a pattern-free list, occurrence deletion is the identity. -/
theorem removeAll_of_not_hasSub (pat l : List Char) (h : hasSub pat l = false) :
    removeAll pat l = l := by
  induction l with
  | nil => rfl
  | cons c rest ih =>
    simp only [hasSub, Bool.or_eq_false_iff] at h
    rw [removeAll_cons_neg pat c rest (by simp [h.1]), ih h.2]

/-- Occurrences of a longer pattern contain occurrences of any prefix of it. -/
theorem hasSub_mono (p q l : List Char) (hpq : p.isPrefixOf q = true)
    (h : hasSub q l = true) : hasSub p l = true := by
  induction l with
  | nil =>
    simp only [hasSub] at h ⊢
    exact List.isPrefixOf_iff_prefix.mpr
      ((List.isPrefixOf_iff_prefix.mp hpq).trans (List.isPrefixOf_iff_prefix.mp h))
  | cons c rest ih =>
    simp only [hasSub, Bool.or_eq_true] at h ⊢
    cases h with
    | inl h =>
      exact Or.inl (List.isPrefixOf_iff_prefix.mpr
        ((List.isPrefixOf_iff_prefix.mp hpq).trans (List.isPrefixOf_iff_prefix.mp h)))
    | inr h => exact Or.inr (ih h)

theorem pyStrip_cons_ws (c : Char) (l : List Char) (h : isPyWs c = true) :
    pyStrip (c :: l) = pyStrip l := by
  simp [pyStrip, List.dropWhile_cons_of_pos h]

theorem pyStrip_concat_ws (c : Char) (l : List Char) (h : isPyWs c = true) :
    pyStrip (l ++ [c]) = pyStrip l := by
  unfold pyStrip
  rw [List.dropWhile_append]
  by_cases he : (l.dropWhile isPyWs).isEmpty
  · rw [if_pos he]
    rw [List.isEmpty_iff] at he
    rw [he, List.rdropWhile_nil, List.dropWhile_cons_of_pos h,
      List.dropWhile_nil, List.rdropWhile_nil]
  · rw [if_neg he]
    exact List.rdropWhile_concat_pos isPyWs _ c h

theorem pyStrip_of_ends_not_ws (a b : Char) (l : List Char)
    (ha : isPyWs a = false) (hb : isPyWs b = false) :
    pyStrip (a :: l ++ [b]) = a :: l ++ [b] := by
  unfold pyStrip
  rw [List.cons_append, List.dropWhile_cons_of_neg (by simp [ha]), ← List.cons_append]
  exact List.rdropWhile_concat_neg isPyWs _ b (by simp [hb])

theorem hasSub_iff_isInfix (pat l : List Char) : hasSub pat l = true ↔ pat <:+: l := by
  induction l with
  | nil =>
    simp only [hasSub, List.isPrefixOf_iff_prefix]
    constructor
    · intro h; exact h.isInfix
    · intro h; exact (List.infix_nil.mp h) ▸ List.prefix_rfl
  | cons c rest ih =>
    simp only [hasSub, Bool.or_eq_true, List.isPrefixOf_iff_prefix, ih,
      List.infix_cons_iff]

theorem pyStrip_isInfix (l : List Char) : pyStrip l <:+: l :=
  (List.rdropWhile_prefix isPyWs _).isInfix.trans (List.dropWhile_suffix isPyWs).isInfix

/-- If a pattern does not occur in `l`, it is not a prefix of the stripped
form of `l` (nor is any extension of it). -/
theorem not_isPrefixOf_pyStrip_of_not_hasSub (pat l : List Char)
    (h : hasSub pat l = false) : pat.isPrefixOf (pyStrip l) = false := by
  by_contra hcon
  rw [Bool.not_eq_false, List.isPrefixOf_iff_prefix] at hcon
  have : pat <:+: l := hcon.isInfix.trans (pyStrip_isInfix l)
  rw [← hasSub_iff_isInfix] at this
  rw [h] at this
  exact Bool.false_ne_true this

theorem removeAll_wrap_core (pat : List Char) (hnl : '\n' ∉ pat) (hne : pat ≠ [])
    (t tail : List Char) :
    removeAll pat ('\n' :: (t ++ '\n' :: tail)) =
      '\n' :: (removeAll pat t ++ '\n' :: removeAll pat tail) := by
  have h1 := removeAll_append_sep pat '\n' hnl hne 0 [] (t ++ '\n' :: tail) (le_refl _)
  simp only [List.nil_append, removeAll_nil] at h1
  rw [h1, removeAll_append_sep pat '\n' hnl hne t.length t tail (le_refl _)]

theorem fence_ne_nil : fence ≠ [] := by simp [fence]

theorem fenceJson_ne_nil : fenceJson ≠ [] := by simp [fenceJson, fence]

theorem newline_not_mem_fence : '\n' ∉ fence := by decide

theorem newline_not_mem_fenceJson : '\n' ∉ fenceJson := by decide

theorem removeAll_fence_fence : removeAll fence fence = [] := by
  have := removeAll_append_self fence [] fence_ne_nil
  simpa using this

/-- If the payload has no fence marker, deleting fences from the fenced body
yields the payload surrounded by the two newlines. -/
theorem removeAll_fence_body (t : List Char) (h : hasSub fence t = false) :
    removeAll fence ('\n' :: (t ++ '\n' :: fence)) = '\n' :: (t ++ ['\n']) := by
  rw [removeAll_wrap_core fence newline_not_mem_fence fence_ne_nil t fence,
    removeAll_of_not_hasSub fence t h, removeAll_fence_fence]

theorem hasSub_fenceJson_false_of_fence (t : List Char) (h : hasSub fence t = false) :
    hasSub fenceJson t = false := by
  by_contra hcon
  rw [Bool.not_eq_false] at hcon
  have := hasSub_mono fence fenceJson t (by decide) hcon
  rw [h] at this
  exact Bool.false_ne_true this

/-- Deleting `json`-tagged fences from the fenced body leaves it unchanged
when the payload has no fence marker (the trailing fence is untagged). -/
theorem removeAll_fenceJson_body (t : List Char) (h : hasSub fence t = false) :
    removeAll fenceJson ('\n' :: (t ++ '\n' :: fence)) = '\n' :: (t ++ '\n' :: fence) := by
  rw [removeAll_wrap_core fenceJson newline_not_mem_fenceJson fenceJson_ne_nil t fence,
    removeAll_of_not_hasSub fenceJson t (hasSub_fenceJson_false_of_fence t h),
    removeAll_of_not_hasSub fenceJson fence (by decide)]

theorem pyStrip_wrapJson (t : List Char) : pyStrip (wrapJson t) = wrapJson t := by
  have hshape : wrapJson t =
      btick :: (([btick, btick, 'j', 's', 'o', 'n', '\n'] ++ t ++ ['\n', btick, btick]) ++ [btick]) := by
    simp [wrapJson, fenceJson, fence]
  rw [hshape]
  exact pyStrip_of_ends_not_ws btick btick _ (by decide) (by decide)

theorem pyStrip_wrapBare (t : List Char) : pyStrip (wrapBare t) = wrapBare t := by
  have hshape : wrapBare t =
      btick :: (([btick, btick, '\n'] ++ t ++ ['\n', btick, btick]) ++ [btick]) := by
    simp [wrapBare, fence]
  rw [hshape]
  exact pyStrip_of_ends_not_ws btick btick _ (by decide) (by decide)

theorem fenceJson_isPrefixOf_wrapJson (t : List Char) :
    fenceJson.isPrefixOf (wrapJson t) = true := by
  unfold wrapJson
  exact isPrefixOf_append_self _ _

theorem fenceJson_not_isPrefixOf_wrapBare (t : List Char) :
    fenceJson.isPrefixOf (wrapBare t) = false := by
  have hshape : wrapBare t = btick :: btick :: btick :: '\n' :: (t ++ '\n' :: fence) := by
    simp [wrapBare, fence]
  rw [hshape]
  simp only [fenceJson, fence, List.cons_append, List.nil_append, List.isPrefixOf]
  have : ('j' == '\n') = false := by decide
  simp [this]

theorem fence_isPrefixOf_wrapBare (t : List Char) :
    fence.isPrefixOf (wrapBare t) = true := by
  unfold wrapBare
  exact isPrefixOf_append_self _ _

/-- Cleaning a `json`-tagged fenced payload in the chaining extractor yields
the stripped payload, provided the payload itself has no fence marker. -/
theorem extractJsonClean_wrapJson (t : List Char) (h : hasSub fence t = false) :
    extractJsonClean (wrapJson t) = pyStrip t := by
  unfold extractJsonClean
  rw [pyStrip_wrapJson t]
  rw [if_pos (fenceJson_isPrefixOf_wrapJson t)]
  unfold wrapJson
  rw [removeAll_append_self fenceJson _ fenceJson_ne_nil,
    removeAll_fenceJson_body t h, removeAll_fence_body t h,
    pyStrip_cons_ws '\n' _ (by decide), pyStrip_concat_ws '\n' t (by decide)]

/-- Cleaning an untagged fenced payload in the chaining extractor also yields
the stripped payload, provided the payload itself has no fence marker. -/
theorem extractJsonClean_wrapBare (t : List Char) (h : hasSub fence t = false) :
    extractJsonClean (wrapBare t) = pyStrip t := by
  unfold extractJsonClean
  rw [pyStrip_wrapBare t]
  rw [if_neg (by rw [fenceJson_not_isPrefixOf_wrapBare t]; exact Bool.false_ne_true),
    if_pos (fence_isPrefixOf_wrapBare t)]
  unfold wrapBare
  rw [removeAll_append_self fence _ fence_ne_nil,
    removeAll_fence_body t h,
    pyStrip_cons_ws '\n' _ (by decide), pyStrip_concat_ws '\n' t (by decide)]

/-- Cleaning a `json`-tagged fenced payload in the routing/parallel parser
yields the stripped payload, provided the payload has no fence marker. -/
theorem routeClean_wrapJson (t : List Char) (h : hasSub fence t = false) :
    routeClean (wrapJson t) = pyStrip t := by
  unfold routeClean
  rw [pyStrip_wrapJson t]
  rw [if_pos (fenceJson_isPrefixOf_wrapJson t)]
  unfold wrapJson
  rw [removeAll_append_self fenceJson _ fenceJson_ne_nil,
    removeAll_fenceJson_body t h, removeAll_fence_body t h,
    pyStrip_cons_ws '\n' _ (by decide), pyStrip_concat_ws '\n' t (by decide)]

/-- The routing/parallel parser leaves an untagged fenced payload completely
unchanged: the fence markers stay in the text handed to `json.loads`. -/
theorem routeClean_wrapBare (t : List Char) :
    routeClean (wrapBare t) = wrapBare t := by
  unfold routeClean
  rw [pyStrip_wrapBare t]
  rw [if_neg (by rw [fenceJson_not_isPrefixOf_wrapBare t]; exact Bool.false_ne_true)]

/-- On fence-free text both cleaners reduce to plain stripping. -/
theorem clean_of_not_hasSub (t : List Char) (h : hasSub fence t = false) :
    extractJsonClean t = pyStrip t ∧ routeClean t = pyStrip t := by
  have hjson : fenceJson.isPrefixOf (pyStrip t) = false :=
    not_isPrefixOf_pyStrip_of_not_hasSub fenceJson t
      (hasSub_fenceJson_false_of_fence t h)
  have hfence : fence.isPrefixOf (pyStrip t) = false :=
    not_isPrefixOf_pyStrip_of_not_hasSub fence t h
  constructor
  · unfold extractJsonClean
    rw [if_neg (by rw [hjson]; exact Bool.false_ne_true),
      if_neg (by rw [hfence]; exact Bool.false_ne_true)]
  · unfold routeClean
    rw [if_neg (by rw [hjson]; exact Bool.false_ne_true)]

/-! ## Claim theorems -/

/-- C1 counterexample: the claim says a confidence score of exactly 0.6 must
fail the gate so that the orchestrator halts with `None`; in the code the
gate condition is `confidence_score < 0.6`, so an extraction with
`is_calendar_event = True` and confidence exactly the binary64 value of
`0.6` passes the gate and the chain runs to completion. -/
theorem c1_gate_boundary_counterexample :
    process_calendar_request_chain
      (.ok { description := "Standup tomorrow at 9am with Alice"
             is_calendar_event := true
             confidence_score := d06 })
      (fun _ => .ok { name := "Standup", date := "2026-10-13T09:00:00"
                      duration_minutes := 15, participants := ["Alice"] })
      (fun _ => .ok { confirmation_message := "See you there!"
                      calendar_link := none })
      = some { confirmation_message := "See you there!", calendar_link := none } := by
  rfl

/-- C1 (amended): in the prompt-chaining flow's gate check, for every
extraction result with `is_calendar_event = true` and successful downstream
steps, the gate passes if and only if the confidence score is at least 0.6
(the binary64 value of the literal); in particular exactly 0.6 passes, and
the orchestrator halts with the 'not applicable' outcome `None` exactly when
the confidence is strictly below 0.6 or the text is not a calendar event. -/
theorem c1_gate_boundary :
    ∀ (q : ℚ) (desc : String) (det : EventDetails) (conf : EventConfirmation),
      (process_calendar_request_chain
          (.ok { description := desc, is_calendar_event := true, confidence_score := q })
          (fun _ => .ok det) (fun _ => .ok conf)
        = some conf ↔ d06 ≤ q) ∧
      process_calendar_request_chain
          (.ok { description := desc, is_calendar_event := false, confidence_score := q })
          (fun _ => .ok det) (fun _ => .ok conf)
        = none := by
  intro q desc det conf
  constructor
  · unfold process_calendar_request_chain
    dsimp only
    by_cases h : q < d06
    · rw [if_pos (Or.inr h)]
      exact iff_of_false (by simp) (not_le.mpr h)
    · rw [if_neg (by simp [h])]
      exact iff_of_true rfl (not_lt.mp h)
  · unfold process_calendar_request_chain
    dsimp only
    rw [if_pos (Or.inl rfl)]

/-- C5 counterexample: the claim says every orchestrator flow turns an
unrecovered operational error into a structured failure payload distinct
from the gate-rejected outcome; in the chaining flow the `except` branch
returns `None`, exactly the gate-rejected outcome, so a provider error is
indistinguishable from a gate rejection. -/
theorem c5_counterexample :
    process_calendar_request_chain (.error (.providerError "transport failure"))
      (fun _ => .ok { name := "Standup", date := "2026-10-13T09:00:00"
                      duration_minutes := 15, participants := ["Alice"] })
      (fun _ => .ok { confirmation_message := "See you there!"
                      calendar_link := none })
      = none ∧
    process_calendar_request_chain
      (.ok { description := "What is the weather today?"
             is_calendar_event := false
             confidence_score := d09 })
      (fun _ => .ok { name := "Standup", date := "2026-10-13T09:00:00"
                      duration_minutes := 15, participants := ["Alice"] })
      (fun _ => .ok { confirmation_message := "See you there!"
                      calendar_link := none })
      = none := by
  exact ⟨rfl, rfl⟩

/-- C5 (amended): in the routing flow a gate failure yields the non-error
'not applicable' outcome `None` while an unrecovered error yields the
distinct structured failure payload (`success = false` message); in the
chaining flow, however, an unrecovered error also yields `None`,
indistinguishable from the gate-rejected outcome. -/
theorem c5_error_reporting :
    (∀ (e : PyErr) (h₁ h₂ : String → Except PyErr CalendarResponse),
        process_calendar_request_route (.error e) h₁ h₂ = some errorCalendarResponse) ∧
    (∀ (r : CalendarRequestType) (h₁ h₂ : String → Except PyErr CalendarResponse),
        r.confidence_score < d07 →
        process_calendar_request_route (.ok r) h₁ h₂ = none) ∧
    some errorCalendarResponse ≠ (none : Option CalendarResponse) ∧
    (∀ (e : PyErr) (ds : String → Except PyErr EventDetails)
        (cs : EventDetails → Except PyErr EventConfirmation),
        process_calendar_request_chain (.error e) ds cs = none) := by
  refine ⟨fun e h₁ h₂ => rfl, fun r h₁ h₂ hlt => ?_, by simp, fun e ds cs => rfl⟩
  unfold process_calendar_request_route
  dsimp only
  rw [if_pos hlt]

/-- C5 witness: the amended theorem applied at a concrete low-confidence
route result. -/
theorem c5_error_reporting_witness :
    process_calendar_request_route
      (.ok { request_type := .other, confidence_score := d065, description := "weather" })
      (fun _ => .error (.providerError "unused"))
      (fun _ => .error (.providerError "unused"))
      = none :=
  c5_error_reporting.2.1
    { request_type := .other, confidence_score := d065, description := "weather" }
    (fun _ => .error (.providerError "unused"))
    (fun _ => .error (.providerError "unused"))
    (by decide)

/-- C7: router dispatch depends only on the category and the confidence
against the 0.7 threshold: a `new_event` classification at confidence 0.75
dispatches to the new-event handler and returns its response; the same
category at 0.65 yields the not-routed outcome `None` for every handler pair
(so no handler is invoked), as does the `other` category at any
confidence. -/
theorem c7_router_dispatch :
    (∀ (desc : String) (resp : CalendarResponse)
        (h₁ h₂ : String → Except PyErr CalendarResponse),
        h₁ desc = .ok resp →
        process_calendar_request_route
          (.ok { request_type := .new_event, confidence_score := mkRat 3 4, description := desc })
          h₁ h₂ = some resp) ∧
    (∀ (desc : String) (h₁ h₂ : String → Except PyErr CalendarResponse),
        process_calendar_request_route
          (.ok { request_type := .new_event, confidence_score := d065, description := desc })
          h₁ h₂ = none) ∧
    (∀ (q : ℚ) (desc : String) (h₁ h₂ : String → Except PyErr CalendarResponse),
        process_calendar_request_route
          (.ok { request_type := .other, confidence_score := q, description := desc })
          h₁ h₂ = none) := by
  refine ⟨fun desc resp h₁ h₂ hok => ?_, fun desc h₁ h₂ => ?_, fun q desc h₁ h₂ => ?_⟩
  · unfold process_calendar_request_route
    dsimp only
    rw [if_neg (by decide), hok]
  · unfold process_calendar_request_route
    dsimp only
    rw [if_pos (by decide)]
  · unfold process_calendar_request_route
    dsimp only
    by_cases h : q < d07 <;> simp [h]

/-- C7 witness: the dispatch conjunct applied at a concrete handler. -/
theorem c7_router_dispatch_witness :
    process_calendar_request_route
      (.ok { request_type := .new_event, confidence_score := mkRat 3 4
             description := "team meeting Tuesday 2pm" })
      (fun d => .ok { success := true, message := d, calendar_link := none })
      (fun _ => .error (.providerError "unused"))
      = some { success := true, message := "team meeting Tuesday 2pm"
               calendar_link := none } :=
  c7_router_dispatch.1 "team meeting Tuesday 2pm"
    { success := true, message := "team meeting Tuesday 2pm", calendar_link := none }
    (fun d => .ok { success := true, message := d, calendar_link := none })
    (fun _ => .error (.providerError "unused"))
    rfl
/-- C2: in the parallel validation group, a branch whose generative call
raises resolves to its conservative failure-biased default
(`CalendarValidation(False, 0.0)` or `SecurityCheck(False, ["Processing
error"])`), the sibling branch's result is present and unchanged in the
aggregate outcome, and the overall accepted flag is false. -/
theorem c2_branch_error_isolation :
    ∀ (e : PyErr) (calendarResp securityResp : Except PyErr String),
      (validate_request calendarResp (.error e)).security_check
          = { is_safe := false, risk_flags := ["Processing error"] } ∧
      (validate_request calendarResp (.error e)).calendar_check
          = gemini_parse_async_calendar calendarResp ∧
      (validate_request calendarResp (.error e)).is_valid = false ∧
      (validate_request (.error e) securityResp).calendar_check
          = { is_calendar_request := false, confidence_score := 0 } ∧
      (validate_request (.error e) securityResp).security_check
          = gemini_parse_async_security securityResp ∧
      (validate_request (.error e) securityResp).is_valid = false := by
  intro e calendarResp securityResp
  refine ⟨rfl, rfl, ?_, rfl, rfl, ?_⟩
  · simp [validate_request, gemini_parse_async_security]
  · simp [validate_request, gemini_parse_async_calendar]

/-- C3: the parallel validation combinator.  Concretely, branch A yielding
`is_calendar_request=true, confidence_score=0.9` and branch B yielding
`is_safe=false, risk_flags=["injection"]` give an aggregate with
`is_valid=false` whose details carry the `"injection"` flag; in general the
accepted flag is true iff `is_calendar_request` holds, the confidence
strictly exceeds 0.7 (binary64), and `is_safe` holds — and both branches'
raw evidence is always included in the aggregate. -/
theorem c3_combinator :
    ((validate_request
        (.ok "\x7b\"is_calendar_request\": true, \"confidence_score\": 0.9\x7d")
        (.ok "\x7b\"is_safe\": false, \"risk_flags\": [\"injection\"]\x7d")).is_valid
      = false ∧
     "injection" ∈ (validate_request
        (.ok "\x7b\"is_calendar_request\": true, \"confidence_score\": 0.9\x7d")
        (.ok "\x7b\"is_safe\": false, \"risk_flags\": [\"injection\"]\x7d")).details.risk_flags) ∧
    (∀ c s : Except PyErr String,
      ((validate_request c s).is_valid = true ↔
        ((gemini_parse_async_calendar c).is_calendar_request = true ∧
         d07 < (gemini_parse_async_calendar c).confidence_score ∧
         (gemini_parse_async_security s).is_safe = true))) ∧
    (∀ c s : Except PyErr String,
      (validate_request c s).calendar_check = gemini_parse_async_calendar c ∧
      (validate_request c s).security_check = gemini_parse_async_security s) := by
  refine ⟨⟨by rfl, by decide⟩, fun c s => ?_, fun c s => ⟨rfl, rfl⟩⟩
  simp [validate_request, Bool.and_eq_true, decide_eq_true_eq, and_assoc]
/-- C4: webhook signature verification.  With a configured (nonempty) secret
`s` and a nonempty expected digest, verification accepts exactly the
signature equal to `hex(hmac_sha256(body, s))` (the HMAC itself is Python
standard library, abstracted as the function argument `f`); any body or
signature whose expected digest differs is rejected; a missing signature is
rejected; with no configured secret every body is accepted regardless of the
signature. -/
theorem c4_verify_webhook :
    ∀ (f : List Nat → String → String) (s : String) (b : List Nat) (sig : String),
      s ≠ "" → f b s ≠ "" →
      ((verify_webhook f (some s) b (some sig) = true ↔ sig = f b s) ∧
       verify_webhook f (some s) b none = false ∧
       (∀ sig₂ : Option String, verify_webhook f none b sig₂ = true) ∧
       (∀ (b₂ : List Nat) (sig₂ : String), f b₂ s ≠ sig₂ →
          verify_webhook f (some s) b₂ (some sig₂) = false)) := by
  intro f s b sig hs hd
  refine ⟨?_, ?_, fun sig₂ => rfl, fun b₂ sig₂ hne => ?_⟩
  · unfold verify_webhook
    dsimp only
    rw [if_neg hs]
    by_cases hsig : sig = ""
    · subst hsig
      simp only [if_pos rfl]
      exact iff_of_false (by simp) (fun h => hd h.symm)
    · rw [if_neg hsig]
      constructor
      · intro h
        exact (beq_iff_eq.mp h).symm
      · intro h
        exact beq_iff_eq.mpr h.symm
  · unfold verify_webhook
    dsimp only
    rw [if_neg hs]
  · unfold verify_webhook
    dsimp only
    rw [if_neg hs]
    by_cases hsig : sig₂ = ""
    · rw [if_pos hsig]
    · rw [if_neg hsig]
      simp only [beq_eq_false_iff_ne, ne_eq]
      exact fun h => hne (by simp [h])

/-- C4 witness: the theorem applied at a concrete digest function, secret,
body and tampered signature. -/
theorem c4_verify_webhook_witness :
    verify_webhook (fun _ _ => "0a1b") (some "shared-secret") [1, 2, 3] (some "ffff") = false :=
  (c4_verify_webhook (fun _ _ => "0a1b") "shared-secret" [1, 2, 3] "0a1b"
      (by decide) (by decide)).2.2.2 [1, 2, 3] "ffff" (by decide)
/-- Reading back a list of JSON strings yields the original list. -/
theorem asStrList_map_str (ps : List String) :
    asStrList (.arr (ps.map Json.str)) = some ps := by
  simp only [asStrList]
  induction ps with
  | nil => rfl
  | cons p pt ih =>
    simp only [List.map_cons, List.mapM_cons, ih, asStr, Option.pure_def,
      Option.bind_eq_bind, Option.some_bind]

/-- C8: schema validation of `NewEventDetails`.  A JSON object supplying
every required field with an in-bounds value validates to `Success` with all
fields populated; an object missing any required field yields a validation
failure (never a partially populated record); response text that does not
parse as JSON yields the malformed-output failure. -/
theorem c8_required_fields :
    (∀ (fl : List (String × Json)) (n d : String) (m : ℤ) (ps : List String),
        jlookup fl "name" = some (.str n) →
        jlookup fl "date" = some (.str d) →
        jlookup fl "duration_minutes" = some (.num (m : ℚ)) →
        jlookup fl "participants" = some (.arr (ps.map Json.str)) →
        1 ≤ m →
        parseNewEventDetails (.obj fl)
          = .ok { name := n, date := d, duration_minutes := m, participants := ps }) ∧
    (∀ fl : List (String × Json),
        jlookup fl "name" = none ∨ jlookup fl "date" = none ∨
        jlookup fl "duration_minutes" = none ∨ jlookup fl "participants" = none →
        parseNewEventDetails (.obj fl) = .error (.validationError "field required")) ∧
    (∀ s : String, jsonLoads (String.mk (routeClean s.toList)) = none →
        gemini_parse_response_newEvent s = .error .jsonDecodeError) := by
  refine ⟨fun fl n d m ps hn hd hm hp hge => ?_, fun fl h => ?_, fun s h => ?_⟩
  · unfold parseNewEventDetails
    dsimp only
    rw [hn, hd, hm, hp]
    simp [asStr, asInt, asStrList_map_str, Rat.den_intCast, Rat.num_intCast, hge]
  · unfold parseNewEventDetails
    dsimp only
    rcases h with h | h | h | h
    · rw [h]
    · rw [h]
      cases jlookup fl "name" <;> rfl
    · rw [h]
      cases jlookup fl "name" <;> cases jlookup fl "date" <;> rfl
    · rw [h]
      cases jlookup fl "name" <;> cases jlookup fl "date" <;>
        cases jlookup fl "duration_minutes" <;> rfl
  · unfold gemini_parse_response_newEvent
    rw [h]

/-- C8 witness: the success conjunct applied at a fully populated object. -/
theorem c8_required_fields_witness :
    parseNewEventDetails (.obj [("name", .str "Standup"),
      ("date", .str "2026-10-14T09:00:00"),
      ("duration_minutes", .num ((30 : ℤ) : ℚ)),
      ("participants", .arr (["Alice", "Bob"].map Json.str))])
      = .ok { name := "Standup", date := "2026-10-14T09:00:00",
              duration_minutes := 30, participants := ["Alice", "Bob"] } :=
  c8_required_fields.1 _ "Standup" "2026-10-14T09:00:00" 30 ["Alice", "Bob"]
    rfl rfl rfl rfl (by decide)
/-- C9 counterexample: the claim says a raw confidence of 0.695 is stored as
`round(0.695, 2) = 0.7` and passes the 0.7 gate.  In fact the binary64 value
of the literal `0.695` is slightly below 695/1000, Python's `round` stores
0.69, and the routing gate rejects the request (`None`), for any handlers. -/
theorem c9_rounding_counterexample :
    parseCalendarRequestType (.obj [("request_type", .str "new_event"),
        ("confidence_score", .num q695), ("description", .str "plan a meeting")])
      = .ok { request_type := .new_event, confidence_score := mkRat 69 100,
              description := "plan a meeting" } ∧
    mkRat 69 100 ≠ mkRat 7 10 ∧
    process_calendar_request_route
      (parseCalendarRequestType (.obj [("request_type", .str "new_event"),
        ("confidence_score", .num q695), ("description", .str "plan a meeting")]))
      (fun _ => .ok { success := true, message := "created", calendar_link := none })
      (fun _ => .ok { success := true, message := "modified", calendar_link := none })
      = none := by
  exact ⟨by decide, by decide, by decide⟩

/-- C9 (amended): for every in-range raw confidence `c`, the constructed
`CalendarRequestType` stores `round(c, 2)` rather than `c`.  The binary64
value of the literal `0.695` is just below 695/1000 and is stored as 0.69,
which fails the 0.7 gate; a raw confidence with binary64 value `0.696` —
still strictly below the threshold — is stored as 0.70 and passes the gate,
so rounding can push a sub-threshold raw value through the gate. -/
theorem c9_confidence_rounding :
    (∀ v : ℚ, 0 ≤ v → v ≤ 1 → validate_confidence v = .ok (pyRound2 v)) ∧
    pyRound2 q695 = mkRat 69 100 ∧
    (pyRound2 q696 = mkRat 7 10 ∧ q696 < mkRat 7 10) ∧
    (∀ (resp : CalendarResponse) (h₁ h₂ : String → Except PyErr CalendarResponse),
        h₁ "set up a sync" = .ok resp →
        process_calendar_request_route
          (parseCalendarRequestType (.obj [("request_type", .str "new_event"),
            ("confidence_score", .num q696), ("description", .str "set up a sync")]))
          h₁ h₂ = some resp) := by
  refine ⟨fun v h0 h1 => ?_, by decide, ⟨by decide, by decide⟩,
    fun resp h₁ h₂ hok => ?_⟩
  · unfold validate_confidence
    rw [if_pos ⟨h0, h1⟩]
  · have hparse : parseCalendarRequestType (.obj [("request_type", .str "new_event"),
        ("confidence_score", .num q696), ("description", .str "set up a sync")])
        = .ok { request_type := .new_event, confidence_score := mkRat 7 10,
                description := "set up a sync" } := by decide
    rw [hparse]
    unfold process_calendar_request_route
    dsimp only
    rw [if_neg (by decide), hok]

/-- C9 witness: the rounding conjunct applied at the binary64 value of
`0.695`, and the gate-passing conjunct at the binary64 value of `0.696`. -/
theorem c9_confidence_rounding_witness :
    validate_confidence q695 = .ok (pyRound2 q695) ∧
    process_calendar_request_route
      (parseCalendarRequestType (.obj [("request_type", .str "new_event"),
        ("confidence_score", .num q696), ("description", .str "set up a sync")]))
      (fun _ => .ok { success := true, message := "done", calendar_link := none })
      (fun _ => .error (.providerError "unused"))
      = some { success := true, message := "done", calendar_link := none } :=
  ⟨c9_confidence_rounding.1 q695 (by decide) (by decide),
   c9_confidence_rounding.2.2.2
     { success := true, message := "done", calendar_link := none }
     (fun _ => .ok { success := true, message := "done", calendar_link := none })
     (fun _ => .error (.providerError "unused")) rfl⟩
/-- C6 counterexample: the claim says wrapping a response in surrounding
code-fence markers (optionally tagged `json`) never changes the validation
result, in the routing parser as well; but that parser only strips
`json`-tagged fences, so a valid payload succeeds unwrapped yet fails as
malformed JSON inside an untagged fence. -/
theorem c6_fence_counterexample :
    gemini_parse_response_requestType
        "\x7b\"request_type\": \"other\", \"confidence_score\": 1, \"description\": \"x\"\x7d"
      = .ok { request_type := .other, confidence_score := 1, description := "x" } ∧
    gemini_parse_response_requestType
        "```\n\x7b\"request_type\": \"other\", \"confidence_score\": 1, \"description\": \"x\"\x7d\n```"
      = .error .jsonDecodeError := by
  exact ⟨by decide, by decide⟩

/-- C6 (amended): for every response text containing no fence marker of its
own, wrapping in a `json`-tagged fence preserves the validation result in
both the chaining extractor and the routing parser, and an untagged fence
also preserves it in the chaining extractor; the routing parser, however,
leaves an untagged fence completely in place, where the original claim
fails. -/
theorem c6_fence_stripping :
    ∀ t : String, hasSub fence t.toList = false →
      extract_json_from_response (String.mk (wrapJson t.toList))
          = extract_json_from_response t ∧
      extract_json_from_response (String.mk (wrapBare t.toList))
          = extract_json_from_response t ∧
      gemini_parse_response_requestType (String.mk (wrapJson t.toList))
          = gemini_parse_response_requestType t ∧
      routeClean (wrapBare t.toList) = wrapBare t.toList := by
  intro t h
  have hc := clean_of_not_hasSub t.toList h
  refine ⟨?_, ?_, ?_, routeClean_wrapBare t.toList⟩
  · unfold extract_json_from_response
    rw [show (String.mk (wrapJson t.toList)).toList = wrapJson t.toList from rfl,
      extractJsonClean_wrapJson t.toList h, hc.1]
  · unfold extract_json_from_response
    rw [show (String.mk (wrapBare t.toList)).toList = wrapBare t.toList from rfl,
      extractJsonClean_wrapBare t.toList h, hc.1]
  · unfold gemini_parse_response_requestType
    rw [show (String.mk (wrapJson t.toList)).toList = wrapJson t.toList from rfl,
      routeClean_wrapJson t.toList h, hc.2]

/-- C6 witness: the `json`-tagged conjunct of the amended theorem applied at
a concrete payload. -/
theorem c6_fence_stripping_witness :
    gemini_parse_response_requestType (String.mk (wrapJson
        "\x7b\"request_type\": \"other\", \"confidence_score\": 1, \"description\": \"x\"\x7d".toList))
      = gemini_parse_response_requestType
        "\x7b\"request_type\": \"other\", \"confidence_score\": 1, \"description\": \"x\"\x7d" :=
  (c6_fence_stripping
    "\x7b\"request_type\": \"other\", \"confidence_score\": 1, \"description\": \"x\"\x7d"
    (by decide)).2.2.1

/-- C10: for every response whose stripped text begins with a code fence,
the chaining extractor deletes every occurrence of the fence marker from the
entire text (the two `replace` calls act globally, not only on the
surrounding fence), so a fenced JSON payload whose string content contains
triple backticks is altered before parsing: the embedded value
`"use ``` fences"` comes back as `"use  fences"`, although the unwrapped
payload parses with its backticks intact. -/
theorem c10_global_fence_removal :
    (∀ s : List Char, fenceJson.isPrefixOf (pyStrip s) = true →
        extractJsonClean s
          = pyStrip (removeAll fence (removeAll fenceJson (pyStrip s)))) ∧
    (∀ s : List Char, fenceJson.isPrefixOf (pyStrip s) = false →
        fence.isPrefixOf (pyStrip s) = true →
        extractJsonClean s = pyStrip (removeAll fence (pyStrip s))) ∧
    extract_json_from_response
        "```json\n\x7b\"description\": \"use ``` fences\"\x7d\n```"
      = .ok (.obj [("description", .str "use  fences")]) ∧
    jsonLoads "\x7b\"description\": \"use ``` fences\"\x7d"
      = some (.obj [("description", .str "use ``` fences")]) := by
  refine ⟨fun s h => ?_, fun s h1 h2 => ?_, by rfl, by rfl⟩
  · unfold extractJsonClean
    dsimp only
    rw [if_pos h]
  · unfold extractJsonClean
    dsimp only
    rw [if_neg (by rw [h1]; exact Bool.false_ne_true), if_pos h2]

/-- C10 witness: the tagged-fence conjunct applied at a concrete fenced
payload. -/
theorem c10_global_fence_removal_witness :
    extractJsonClean ("```json\n\x7b\"a\": 1\x7d\n```".toList)
      = pyStrip (removeAll fence (removeAll fenceJson
          (pyStrip ("```json\n\x7b\"a\": 1\x7d\n```".toList)))) :=
  c10_global_fence_removal.1 _ (by decide)
